import Mathlib

/-!
Shallow embedding of `src/app.py` (ai-mood-detector-backend).

The core is `MoodDetector.analyze_mood`, a pure function from a bundle of
behavioral signals to a mood label, a stress level, a confidence value and
a three-way probability distribution.  Real arithmetic is embedded in `ℚ`;
Python's `int(...)` truncation toward zero is modelled by `py_int`.
-/

/-- The three mood labels the detector can return. -/
inductive Mood where
  | happy : Mood
  | stressed : Mood
  | neutral : Mood
deriving DecidableEq, Repr

/-- The six scalar input fields after defaulting (lines 30-35 of app.py). -/
structure Inputs where
  avgSmile : ℚ
  avgStressIndicator : ℚ
  facialConfidence : ℚ
  wpm : ℚ
  accuracy : ℚ
  avgVoiceLevel : ℚ
deriving DecidableEq, Repr

/-- Clamping `max(0, min(1, x))` from the feature-normalization step (lines 38-41). -/
def clamp01 (x : ℚ) : ℚ := max 0 (min 1 x)

/-- Score `smile_score = max(0, min(1, avg_smile))` (line 38). -/
def smile_score (i : Inputs) : ℚ := clamp01 i.avgSmile

/-- Score `stress_score = max(0, min(1, avg_stress_indicator))` (line 39). -/
def stress_score (i : Inputs) : ℚ := clamp01 i.avgStressIndicator

/-- Score `typing_score = max(0, min(1, wpm / 80))` (line 40). -/
def typing_score (i : Inputs) : ℚ := clamp01 (i.wpm / 80)

/-- Score `accuracy_score = max(0, min(1, accuracy / 100))` (line 41). -/
def accuracy_score (i : Inputs) : ℚ := clamp01 (i.accuracy / 100)

/-- Unnormalized happy weight (lines 44-48), with the fixed configuration
weights `facial_smile = 0.45`, `typing_speed = 0.15`, `typing_accuracy = 0.10`. -/
def happy_raw (i : Inputs) : ℚ :=
  0.45 * smile_score i * 2 + 0.15 * typing_score i * 0.5 +
    0.10 * accuracy_score i * 0.3

/-- Unnormalized stressed weight (lines 50-54), with `facial_stress = 0.30`. -/
def stressed_raw (i : Inputs) : ℚ :=
  0.30 * stress_score i * 2 + 0.15 * (1 - typing_score i) * 0.5 +
    0.10 * (1 - accuracy_score i) * 0.3

/-- Divisor `total = happy_prob + stressed_prob + 0.2` (line 57), the normalization
divisor with the fixed neutral bias. -/
def total (i : Inputs) : ℚ := happy_raw i + stressed_raw i + 0.2

/-- Normalized happy probability (line 58), before rounding. -/
def happy_prob (i : Inputs) : ℚ := happy_raw i / total i

/-- Normalized stressed probability (line 59), before rounding. -/
def stressed_prob (i : Inputs) : ℚ := stressed_raw i / total i

/-- Normalized neutral probability `0.2 / total` (line 60), before rounding. -/
def neutral_prob (i : Inputs) : ℚ := 0.2 / total i

/-- The step-5 ordered decision list (lines 62-74): first matching rule wins,
returning the selected mood together with its confidence value. -/
def decide_mood (i : Inputs) : Mood × ℚ :=
  if 0.5 < happy_prob i ∧ 0.6 < smile_score i then (Mood.happy, happy_prob i)
  else if 0.5 < stressed_prob i ∧ 0.6 < stress_score i then
    (Mood.stressed, stressed_prob i)
  else if stressed_prob i < happy_prob i ∧ 0.5 < smile_score i then
    (Mood.happy, happy_prob i)
  else (Mood.neutral, neutral_prob i)

/-- Python's `int(...)` applied to a real value: truncation toward zero. -/
def py_int (q : ℚ) : ℤ := if 0 ≤ q then ⌊q⌋ else ⌈q⌉

/-- The pre-override stress level (lines 77-84): the weighted formula,
truncated by `int(...)`, then clamped to `[0, 100]`. -/
def stress_level_pre (i : Inputs) : ℤ :=
  max 0 (min 100 (py_int
    (stress_score i * 40 + (1 - typing_score i) * 20 +
      (1 - accuracy_score i) * 15 + i.avgVoiceLevel / 5 - smile_score i * 25)))

/-- The step-7 facial-confidence override (lines 86-93): may replace the mood
and adjust the stress level, leaving both unchanged when no branch fires. -/
def facial_override (i : Inputs) (m : Mood) (sl : ℤ) : Mood × ℤ :=
  if 0.6 < i.facialConfidence then
    if 0.7 < smile_score i then (Mood.happy, max 0 (sl - 20))
    else if 0.7 < stress_score i then (Mood.stressed, min 100 (sl + 15))
    else (m, sl)
  else (m, sl)

/-- Round-half-to-even on `ℚ`, the tie-breaking rule of Python's `round`. -/
def round_half_even (x : ℚ) : ℤ :=
  if x - ⌊x⌋ < 1/2 then ⌊x⌋
  else if 1/2 < x - ⌊x⌋ then ⌊x⌋ + 1
  else if ⌊x⌋ % 2 = 0 then ⌊x⌋ else ⌊x⌋ + 1

/-- Python's `round(q, 2)`: round to two decimal places, ties to even. -/
def py_round2 (q : ℚ) : ℚ := (round_half_even (q * 100) : ℚ) / 100

/-- The structure returned by `analyze_mood` (lines 95-104). -/
structure MoodResult where
  mood : Mood
  stressLevel : ℤ
  confidence : ℚ
  probHappy : ℚ
  probStressed : ℚ
  probNeutral : ℚ
deriving DecidableEq, Repr

/-- The core scorer `MoodDetector.analyze_mood` on already-defaulted inputs (lines 37-104):
normalize features, build the distribution, run the step-5 decision list,
compute the clamped stress level, apply the facial-confidence override, and
assemble the result.  The confidence comes from the step-5 selection; the
override never touches it. -/
def analyze_mood (i : Inputs) : MoodResult :=
  { mood := (facial_override i (decide_mood i).1 (stress_level_pre i)).1
    stressLevel := (facial_override i (decide_mood i).1 (stress_level_pre i)).2
    confidence := (decide_mood i).2
    probHappy := py_round2 (happy_prob i)
    probStressed := py_round2 (stressed_prob i)
    probNeutral := py_round2 (neutral_prob i) }

/-- The concrete input bundle exhibiting the confidence/override mismatch:
`avgSmile = 0.75`, `avgStressIndicator = 1`, `facialConfidence = 0.8`, the
rest at their defaults. -/
def exC1 : Inputs :=
  { avgSmile := 3/4, avgStressIndicator := 1, facialConfidence := 4/5,
    wpm := 0, accuracy := 0, avgVoiceLevel := 50 }

example : clamp01 (3/2) = 1 := by norm_num [clamp01, min_def, max_def]
example : py_int (-3/2) = -1 := by
  norm_num [py_int, show ((-3:ℚ)/2) = -(3/2) by norm_num, Int.ceil_neg]
example : py_int (3/2) = 1 := by norm_num [py_int]
example : happy_prob exC1 = 135/316 := by
  norm_num [happy_prob, happy_raw, total, stressed_raw, exC1, smile_score,
    stress_score, typing_score, accuracy_score, clamp01, min_def, max_def]
example : (analyze_mood exC1).mood = Mood.happy := by
  norm_num [analyze_mood, facial_override, decide_mood, happy_prob, stressed_prob,
    neutral_prob, happy_raw, stressed_raw, total, exC1, smile_score,
    stress_score, typing_score, accuracy_score, clamp01, min_def, max_def]

/-- The probability backing a given mood label, before rounding. -/
def prob_of (i : Inputs) : Mood → ℚ
  | Mood.happy => happy_prob i
  | Mood.stressed => stressed_prob i
  | Mood.neutral => neutral_prob i

lemma clamp01_nonneg (x : ℚ) : 0 ≤ clamp01 x := le_max_left 0 _

lemma clamp01_le_one (x : ℚ) : clamp01 x ≤ 1 := max_le (by norm_num) (min_le_left 1 x)

lemma clamp01_mono {a b : ℚ} (h : a ≤ b) : clamp01 a ≤ clamp01 b :=
  max_le_max le_rfl (min_le_min le_rfl h)

lemma happy_raw_nonneg (i : Inputs) : 0 ≤ happy_raw i := by
  have h1 := clamp01_nonneg i.avgSmile
  have h2 := clamp01_nonneg (i.wpm / 80)
  have h3 := clamp01_nonneg (i.accuracy / 100)
  unfold happy_raw smile_score typing_score accuracy_score
  nlinarith

lemma stressed_raw_nonneg (i : Inputs) : 0 ≤ stressed_raw i := by
  have h1 := clamp01_nonneg i.avgStressIndicator
  have h2 := clamp01_le_one (i.wpm / 80)
  have h3 := clamp01_le_one (i.accuracy / 100)
  unfold stressed_raw stress_score typing_score accuracy_score
  nlinarith

lemma total_pos (i : Inputs) : 0 < total i := by
  have h1 := happy_raw_nonneg i
  have h2 := stressed_raw_nonneg i
  unfold total
  nlinarith

lemma probs_sum_one (i : Inputs) :
    happy_prob i + stressed_prob i + neutral_prob i = 1 := by
  rw [happy_prob, stressed_prob, neutral_prob, div_add_div_same, div_add_div_same,
    show happy_raw i + stressed_raw i + 0.2 = total i from rfl]
  exact div_self (total_pos i).ne'

lemma neutral_prob_pos (i : Inputs) : 0 < neutral_prob i :=
  div_pos (by norm_num) (total_pos i)

lemma stress_level_pre_nonneg (i : Inputs) : 0 ≤ stress_level_pre i :=
  le_max_left 0 _

lemma stress_level_pre_le (i : Inputs) : stress_level_pre i ≤ 100 :=
  max_le (by norm_num) (min_le_left 100 _)

lemma analyze_mood_mood_eq (i : Inputs) :
    (analyze_mood i).mood =
      (facial_override i (decide_mood i).1 (stress_level_pre i)).1 := rfl

lemma analyze_mood_stress_eq (i : Inputs) :
    (analyze_mood i).stressLevel =
      (facial_override i (decide_mood i).1 (stress_level_pre i)).2 := rfl

/-- C2: the normalization divisor `total` is strictly positive for every input
bundle (so none of the three divisions in step 4 divides by zero), and the
three normalized probabilities sum exactly to 1 before rounding. -/
theorem C2_total_pos_probs_sum_one (i : Inputs) :
    0 < total i ∧ happy_prob i + stressed_prob i + neutral_prob i = 1 :=
  ⟨total_pos i, probs_sum_one i⟩

/-- C3: for every input bundle, the `stressLevel` field of the returned
result lies in the closed interval `[0, 100]`, including after the step-7
override adds 15 or subtracts 20. -/
theorem C3_stress_level_bounds (i : Inputs) :
    0 ≤ (analyze_mood i).stressLevel ∧ (analyze_mood i).stressLevel ≤ 100 := by
  have h1 := stress_level_pre_nonneg i
  have h2 := stress_level_pre_le i
  show 0 ≤ (facial_override i (decide_mood i).1 (stress_level_pre i)).2 ∧
    (facial_override i (decide_mood i).1 (stress_level_pre i)).2 ≤ 100
  unfold facial_override
  split_ifs <;> refine ⟨?_, ?_⟩ <;> dsimp only <;> omega

/-- C1 counterexample: on the bundle `exC1` (avgSmile 0.75, avgStressIndicator 1,
facialConfidence 0.8, rest defaulted) the step-5 list selects neutral, the
step-7 override then returns happy, but the confidence field keeps the
neutral probability and differs from the happy probability. -/
theorem C1_counterexample :
    (analyze_mood exC1).mood = Mood.happy ∧
      (analyze_mood exC1).confidence ≠ happy_prob exC1 := by
  constructor <;>
    norm_num [analyze_mood, facial_override, decide_mood, happy_prob,
      stressed_prob, neutral_prob, happy_raw, stressed_raw, total, exC1,
      smile_score, stress_score, typing_score, accuracy_score, clamp01,
      min_def, max_def]

/-- C1 amended: the confidence field always equals the probability backing
the mood selected by the step-5 decision list; the step-7 override never
updates it, so when the override changes the mood the confidence may differ
from the probability of the mood actually returned. -/
theorem C1_confidence_matches_pre_override_mood (i : Inputs) :
    (analyze_mood i).confidence = prob_of i (decide_mood i).1 := by
  show (decide_mood i).2 = prob_of i (decide_mood i).1
  unfold decide_mood
  split_ifs <;> rfl

/-- C4: the step-5 selection follows the spec's ordered decision list with
first-match-wins semantics: happy when `happy_prob > 0.5` and
`smile_score > 0.6`; else stressed when `stressed_prob > 0.5` and
`stress_score > 0.6`; else happy when `happy_prob > stressed_prob` and
`smile_score > 0.5`; else neutral, each with the matching probability as
confidence. -/
theorem C4_decision_list_order (i : Inputs) :
    (0.5 < happy_prob i ∧ 0.6 < smile_score i →
      decide_mood i = (Mood.happy, happy_prob i)) ∧
    (¬(0.5 < happy_prob i ∧ 0.6 < smile_score i) →
      0.5 < stressed_prob i ∧ 0.6 < stress_score i →
      decide_mood i = (Mood.stressed, stressed_prob i)) ∧
    (¬(0.5 < happy_prob i ∧ 0.6 < smile_score i) →
      ¬(0.5 < stressed_prob i ∧ 0.6 < stress_score i) →
      stressed_prob i < happy_prob i ∧ 0.5 < smile_score i →
      decide_mood i = (Mood.happy, happy_prob i)) ∧
    (¬(0.5 < happy_prob i ∧ 0.6 < smile_score i) →
      ¬(0.5 < stressed_prob i ∧ 0.6 < stress_score i) →
      ¬(stressed_prob i < happy_prob i ∧ 0.5 < smile_score i) →
      decide_mood i = (Mood.neutral, neutral_prob i)) := by
  unfold decide_mood
  split_ifs with h1 h2 h3 <;> refine ⟨?_, ?_, ?_, ?_⟩ <;> intros <;>
    first | rfl | tauto

/-- Concrete bundle firing the first decision-list rule: avgSmile 0.9,
avgStressIndicator 0, wpm 80, accuracy 100. -/
def exC4 : Inputs :=
  { avgSmile := 9/10, avgStressIndicator := 0, facialConfidence := 0,
    wpm := 80, accuracy := 100, avgVoiceLevel := 50 }

/-- Witness for C4: on `exC4` the first rule's guard holds and the selection
is happy with the happy probability. -/
theorem C4_witness :
    decide_mood exC4 = (Mood.happy, happy_prob exC4) :=
  (C4_decision_list_order exC4).1
    ⟨by norm_num [happy_prob, happy_raw, stressed_raw, total, exC4, smile_score,
        stress_score, typing_score, accuracy_score, clamp01, min_def, max_def],
      by norm_num [smile_score, exC4, clamp01, min_def, max_def]⟩

/-- C5: the step-7 override: when `facialConfidence > 0.6` and
`smile_score > 0.7` the result is happy with the step-6 level lowered by 20
and floored at 0; else when `facialConfidence > 0.6` and `stress_score > 0.7`
the result is stressed with the level raised by 15 and capped at 100; when
neither condition holds, the step-5 mood and step-6 level stand unchanged. -/
theorem C5_facial_override_semantics (i : Inputs) :
    (0.6 < i.facialConfidence ∧ 0.7 < smile_score i →
      (analyze_mood i).mood = Mood.happy ∧
        (analyze_mood i).stressLevel = max 0 (stress_level_pre i - 20)) ∧
    (0.6 < i.facialConfidence ∧ ¬(0.7 < smile_score i) ∧ 0.7 < stress_score i →
      (analyze_mood i).mood = Mood.stressed ∧
        (analyze_mood i).stressLevel = min 100 (stress_level_pre i + 15)) ∧
    (¬(0.6 < i.facialConfidence ∧ 0.7 < smile_score i) ∧
        ¬(0.6 < i.facialConfidence ∧ 0.7 < stress_score i) →
      (analyze_mood i).mood = (decide_mood i).1 ∧
        (analyze_mood i).stressLevel = stress_level_pre i) := by
  simp only [analyze_mood_mood_eq, analyze_mood_stress_eq]
  unfold facial_override
  refine ⟨fun h => ?_, fun h => ?_, fun h => ?_⟩
  · rw [if_pos h.1, if_pos h.2]; exact ⟨rfl, rfl⟩
  · rw [if_pos h.1, if_neg h.2.1, if_pos h.2.2]; exact ⟨rfl, rfl⟩
  · by_cases hfc : 0.6 < i.facialConfidence
    · have hsm : ¬(0.7 < smile_score i) := fun hs => h.1 ⟨hfc, hs⟩
      have hst : ¬(0.7 < stress_score i) := fun hs => h.2 ⟨hfc, hs⟩
      rw [if_pos hfc, if_neg hsm, if_neg hst]; exact ⟨rfl, rfl⟩
    · rw [if_neg hfc]; exact ⟨rfl, rfl⟩

/-- Concrete bundle firing the first override branch: avgSmile 0.9,
facialConfidence 0.8. -/
def exC5 : Inputs :=
  { avgSmile := 9/10, avgStressIndicator := 0, facialConfidence := 4/5,
    wpm := 0, accuracy := 0, avgVoiceLevel := 50 }

/-- Witness for C5: on `exC5` the first override branch applies, giving mood
happy and the step-6 level lowered by 20 (floored at 0). -/
theorem C5_witness :
    (analyze_mood exC5).mood = Mood.happy ∧
      (analyze_mood exC5).stressLevel = max 0 (stress_level_pre exC5 - 20) :=
  (C5_facial_override_semantics exC5).1
    ⟨by norm_num [exC5], by norm_num [smile_score, exC5, clamp01, min_def, max_def]⟩

/-- Modelled from the spec's step 6: truncation toward zero, written as the
negated floor of the negation for negative arguments. -/
def spec_trunc (q : ℚ) : ℤ := if q < 0 then -⌊-q⌋ else ⌊q⌋

/-- Modelled from the spec's step 6: the weighted stress formula, truncated
toward zero, then clamped to `[0, 100]`. -/
def spec_stress_level (i : Inputs) : ℤ :=
  max 0 (min 100 (spec_trunc
    (stress_score i * 40 + (1 - typing_score i) * 20 +
      (1 - accuracy_score i) * 15 + i.avgVoiceLevel / 5 - smile_score i * 25)))

lemma py_int_eq_spec_trunc (q : ℚ) : py_int q = spec_trunc q := by
  unfold py_int spec_trunc
  rcases lt_or_le q 0 with h | h
  · rw [if_neg (not_le.mpr h), if_pos h, Int.floor_neg, neg_neg]
  · rw [if_pos h, if_neg (not_lt.mpr h)]

/-- C6: the pre-override stress level computed by the code (Python `int`
applied to the weighted sum, then clamped) equals the spec's formula with
truncation toward zero followed by clamping to `[0, 100]`. -/
theorem C6_stress_formula_truncates (i : Inputs) :
    stress_level_pre i = spec_stress_level i := by
  unfold stress_level_pre spec_stress_level
  rw [py_int_eq_spec_trunc]

/-- C7: holding every other field fixed, `happy_prob` is monotonically
non-decreasing in `avgSmile` over `[0, 1]`. -/
theorem C7_happy_prob_monotone (i : Inputs) (a b : ℚ)
    (h0 : 0 ≤ a) (hab : a ≤ b) (h1 : b ≤ 1) :
    happy_prob { i with avgSmile := a } ≤ happy_prob { i with avgSmile := b } := by
  have hH : happy_raw { i with avgSmile := a } ≤ happy_raw { i with avgSmile := b } := by
    unfold happy_raw smile_score typing_score accuracy_score
    dsimp only
    linarith [clamp01_mono hab]
  have hHa := happy_raw_nonneg { i with avgSmile := a }
  have hS := stressed_raw_nonneg { i with avgSmile := a }
  have hTa := total_pos { i with avgSmile := a }
  have hTb := total_pos { i with avgSmile := b }
  have hSeq : stressed_raw { i with avgSmile := a } =
      stressed_raw { i with avgSmile := b } := rfl
  rw [happy_prob, happy_prob, div_le_div_iff₀ hTa hTb]
  unfold total
  rw [← hSeq]
  nlinarith [mul_nonneg (sub_nonneg.mpr hH) hS]

/-- Concrete bundle used to witness C7 (avgSmile is then overridden). -/
def exC7 : Inputs :=
  { avgSmile := 0, avgStressIndicator := 1/2, facialConfidence := 0,
    wpm := 40, accuracy := 50, avgVoiceLevel := 50 }

/-- Witness for C7: raising avgSmile from 0 to 1 on `exC7` does not lower
the happy probability. -/
theorem C7_witness :
    happy_prob { exC7 with avgSmile := (0:ℚ) } ≤
      happy_prob { exC7 with avgSmile := (1:ℚ) } :=
  C7_happy_prob_monotone exC7 0 1 le_rfl (by norm_num) le_rfl

/-- The step-5 decision list with its first two rules swapped, used to state
that the swap never changes the outcome. -/
def decide_mood_swapped (i : Inputs) : Mood × ℚ :=
  if 0.5 < stressed_prob i ∧ 0.6 < stress_score i then
    (Mood.stressed, stressed_prob i)
  else if 0.5 < happy_prob i ∧ 0.6 < smile_score i then (Mood.happy, happy_prob i)
  else if stressed_prob i < happy_prob i ∧ 0.5 < smile_score i then
    (Mood.happy, happy_prob i)
  else (Mood.neutral, neutral_prob i)

lemma not_both_gt_half (i : Inputs) :
    ¬(0.5 < happy_prob i ∧ 0.5 < stressed_prob i) := by
  rintro ⟨h1, h2⟩
  have hs := probs_sum_one i
  have hn := neutral_prob_pos i
  norm_num at h1 h2
  linarith

/-- C8: `happy_prob` and `stressed_prob` can never both exceed 0.5 (their sum
with the strictly positive neutral probability is 1), so the first two rules
of the step-5 decision list are mutually exclusive and swapping their order
never changes the selection. -/
theorem C8_first_two_rules_exclusive (i : Inputs) :
    ¬(0.5 < happy_prob i ∧ 0.5 < stressed_prob i) ∧ 0 < neutral_prob i ∧
      decide_mood_swapped i = decide_mood i := by
  refine ⟨not_both_gt_half i, neutral_prob_pos i, ?_⟩
  unfold decide_mood decide_mood_swapped
  by_cases hA : 0.5 < stressed_prob i ∧ 0.6 < stress_score i
  · by_cases hB : 0.5 < happy_prob i ∧ 0.6 < smile_score i
    · exact absurd ⟨hB.1, hA.1⟩ (not_both_gt_half i)
    · simp only [if_pos hA, if_neg hB]
  · by_cases hB : 0.5 < happy_prob i ∧ 0.6 < smile_score i
    · simp only [if_neg hA, if_pos hB]
    · simp only [if_neg hA, if_neg hB]

/-- An input bundle before defaulting: each field may be absent, whether its
group key is missing from the request body or the field is missing from its
group object (both route to the same per-field default). -/
structure RawInputs where
  avgSmile : Option ℚ
  avgStressIndicator : Option ℚ
  facialConfidence : Option ℚ
  wpm : Option ℚ
  accuracy : Option ℚ
  avgVoiceLevel : Option ℚ
deriving DecidableEq, Repr

/-- Per-field defaulting (lines 30-35 of app.py): absent fields become 0.5,
0.5, 0, 0, 0 and 50 respectively. -/
def resolve (r : RawInputs) : Inputs :=
  { avgSmile := r.avgSmile.getD 0.5
    avgStressIndicator := r.avgStressIndicator.getD 0.5
    facialConfidence := r.facialConfidence.getD 0
    wpm := r.wpm.getD 0
    accuracy := r.accuracy.getD 0
    avgVoiceLevel := r.avgVoiceLevel.getD 50 }

lemma facial_override_fst_stress_irrel (i : Inputs) (m : Mood) (sl sl' : ℤ) :
    (facial_override i m sl).1 = (facial_override i m sl').1 := by
  unfold facial_override
  split_ifs <;> rfl

lemma analyze_voice_irrel (i : Inputs) (v : ℚ) :
    (analyze_mood { i with avgVoiceLevel := v }).mood = (analyze_mood i).mood ∧
      (analyze_mood { i with avgVoiceLevel := v }).confidence =
        (analyze_mood i).confidence ∧
      (analyze_mood { i with avgVoiceLevel := v }).probHappy =
        (analyze_mood i).probHappy ∧
      (analyze_mood { i with avgVoiceLevel := v }).probStressed =
        (analyze_mood i).probStressed ∧
      (analyze_mood { i with avgVoiceLevel := v }).probNeutral =
        (analyze_mood i).probNeutral := by
  refine ⟨?_, rfl, rfl, rfl, rfl⟩
  show (facial_override { i with avgVoiceLevel := v }
      (decide_mood { i with avgVoiceLevel := v }).1
      (stress_level_pre { i with avgVoiceLevel := v })).1 =
    (facial_override i (decide_mood i).1 (stress_level_pre i)).1
  rw [facial_override_fst_stress_irrel { i with avgVoiceLevel := v }
    (decide_mood { i with avgVoiceLevel := v }).1
    (stress_level_pre { i with avgVoiceLevel := v }) (stress_level_pre i)]
  rfl

/-- C9: two input bundles that differ only in the avgVoiceLevel field
(present or absent) yield the same mood, confidence and rounded
probabilities: the voice level only ever feeds the stress formula. -/
theorem C9_voice_noninterference (r₁ r₂ : RawInputs)
    (h1 : r₁.avgSmile = r₂.avgSmile)
    (h2 : r₁.avgStressIndicator = r₂.avgStressIndicator)
    (h3 : r₁.facialConfidence = r₂.facialConfidence)
    (h4 : r₁.wpm = r₂.wpm)
    (h5 : r₁.accuracy = r₂.accuracy) :
    (analyze_mood (resolve r₁)).mood = (analyze_mood (resolve r₂)).mood ∧
      (analyze_mood (resolve r₁)).confidence =
        (analyze_mood (resolve r₂)).confidence ∧
      (analyze_mood (resolve r₁)).probHappy =
        (analyze_mood (resolve r₂)).probHappy ∧
      (analyze_mood (resolve r₁)).probStressed =
        (analyze_mood (resolve r₂)).probStressed ∧
      (analyze_mood (resolve r₁)).probNeutral =
        (analyze_mood (resolve r₂)).probNeutral := by
  have hres : resolve r₁ =
      { resolve r₂ with avgVoiceLevel := r₁.avgVoiceLevel.getD 50 } := by
    unfold resolve
    rw [h1, h2, h3, h4, h5]
  rw [hres]
  exact analyze_voice_irrel (resolve r₂) (r₁.avgVoiceLevel.getD 50)

/-- First raw bundle for the C9 witness: voice field absent. -/
def exC9a : RawInputs :=
  { avgSmile := some (3/4), avgStressIndicator := none,
    facialConfidence := some (1/2), wpm := none, accuracy := some 80,
    avgVoiceLevel := none }

/-- Second raw bundle for the C9 witness: same as `exC9a` except the voice
field is present with value 70. -/
def exC9b : RawInputs :=
  { avgSmile := some (3/4), avgStressIndicator := none,
    facialConfidence := some (1/2), wpm := none, accuracy := some 80,
    avgVoiceLevel := some 70 }

/-- Witness for C9: the two concrete bundles differing only in the voice
level give the same mood, confidence and probabilities. -/
theorem C9_witness :
    (analyze_mood (resolve exC9a)).mood = (analyze_mood (resolve exC9b)).mood ∧
      (analyze_mood (resolve exC9a)).confidence =
        (analyze_mood (resolve exC9b)).confidence ∧
      (analyze_mood (resolve exC9a)).probHappy =
        (analyze_mood (resolve exC9b)).probHappy ∧
      (analyze_mood (resolve exC9a)).probStressed =
        (analyze_mood (resolve exC9b)).probStressed ∧
      (analyze_mood (resolve exC9a)).probNeutral =
        (analyze_mood (resolve exC9b)).probNeutral :=
  C9_voice_noninterference exC9a exC9b rfl rfl rfl rfl rfl

/-- A JSON-like value, as the boundary layer hands it to the scorer. -/
inductive JVal where
  | null : JVal
  | bool : Bool → JVal
  | num : ℚ → JVal
  | str : String → JVal
  | arr : List JVal → JVal
  | obj : List (String × JVal) → JVal

/-- Python dictionary lookup with a default, `d.get(key, dflt)` (lines 25-35):
it succeeds only when the receiver actually is a dict; on any other value the
attribute access raises. -/
def dict_get (v : JVal) (k : String) (dflt : JVal) : Except String JVal :=
  match v with
  | JVal.obj fields => Except.ok ((List.lookup k fields).getD dflt)
  | _ => Except.error "AttributeError: no attribute get"

/-- A numeric JSON value, as consumed by the arithmetic of the scorer; any
other value makes the arithmetic raise. -/
def as_num (v : JVal) : Except String ℚ :=
  match v with
  | JVal.num q => Except.ok q
  | _ => Except.error "TypeError: unsupported operand type"

/-- The scorer `MoodDetector.analyze_mood` on the parsed request body (lines 21-104):
extract the three group objects with `.get` (raising when the body is not an
object), extract the six numeric fields with their defaults, then run the
pure scorer. -/
def analyze_mood_json (data : JVal) : Except String MoodResult := do
  let facial_data ← dict_get data "facial" (JVal.obj [])
  let typing_data ← dict_get data "typing" (JVal.obj [])
  let voice_data ← dict_get data "voice" (JVal.obj [])
  let avg_smile ← as_num (← dict_get facial_data "avgSmile" (JVal.num 0.5))
  let avg_stress_indicator ←
    as_num (← dict_get facial_data "avgStressIndicator" (JVal.num 0.5))
  let facial_confidence ←
    as_num (← dict_get facial_data "facialConfidence" (JVal.num 0))
  let wpm ← as_num (← dict_get typing_data "wpm" (JVal.num 0))
  let accuracy ← as_num (← dict_get typing_data "accuracy" (JVal.num 0))
  let voice_level ← as_num (← dict_get voice_data "avgVoiceLevel" (JVal.num 50))
  Except.ok (analyze_mood
    { avgSmile := avg_smile, avgStressIndicator := avg_stress_indicator,
      facialConfidence := facial_confidence, wpm := wpm, accuracy := accuracy,
      avgVoiceLevel := voice_level })

/-- The POST /api/analyze handler (lines 108-121): HTTP 200 with success true
when the scorer returns, HTTP 500 with success false when it raises. -/
def post_analyze (body : JVal) : ℕ × Bool :=
  match analyze_mood_json body with
  | Except.ok _ => (200, true)
  | Except.error _ => (500, false)

/-- C10: when the parsed request body is not a JSON object (null, a boolean,
a number, a string or a list), the scorer raises on the first attribute
access and the endpoint answers HTTP 500 with success false; by contrast an
empty object succeeds with every field at its documented default. -/
theorem C10_non_object_body (body : JVal) (h : ∀ fs, body ≠ JVal.obj fs) :
    post_analyze body = (500, false) ∧
      analyze_mood_json (JVal.obj []) =
        Except.ok (analyze_mood
          { avgSmile := 0.5, avgStressIndicator := 0.5, facialConfidence := 0,
            wpm := 0, accuracy := 0, avgVoiceLevel := 50 }) := by
  refine ⟨?_, rfl⟩
  cases body with
  | null => rfl
  | bool b => rfl
  | num q => rfl
  | str s => rfl
  | arr xs => rfl
  | obj fs => exact absurd rfl (h fs)

/-- Witness for C10: a JSON null body is answered with HTTP 500 and
success false. -/
theorem C10_witness : post_analyze JVal.null = (500, false) :=
  (C10_non_object_body JVal.null (fun _ h => JVal.noConfusion h)).1
